import Mathlib

/-!
Verification of the bilby sampler-orchestration and posterior-result engine.

The development shallowly embeds the data model of the repository: the
Result artifact and its hierarchical HDF5 serialization (whose concrete
top-level key names are documented by the ddls listing in
docs/bilby-output.txt), the prior collection with its partition into
search and fixed parameter keys (prior declarations in
bilby/gw/prior_files), the sampler dispatch surface exercised by
examples/tutorials/compare_samplers.ipynb, and the checkpoint manager.
Real-valued quantities are embedded as rationals.
-/

namespace Bilby

/-- A scalar value stored in the hierarchical container: the ddls listing in
docs/bilby-output.txt shows float64, int64, bool and ascii leaves. -/
inductive HValue where
  | float (q : ℚ)
  | int (n : ℤ)
  | bool (b : Bool)
  | str (s : String)
deriving DecidableEq, Repr

/-- The posterior table: a DataFrame with named columns in a fixed order and
one row per accepted posterior sample. -/
structure Posterior where
  columns : List String
  rows : List (List ℚ)
deriving DecidableEq, Repr

/-- The terminal Result artifact assembled after a sampler run, with the
fields named in docs/bilby-output.txt. -/
structure Result where
  label : String
  outdir : String
  posterior : Posterior
  log_evidence : ℚ
  log_evidence_error : ℚ
  log_noise_evidence : ℚ
  log_bayes_factor : ℚ
  search_parameter_keys : List String
  fixed_parameter_keys : List String
  parameter_labels : List String
  injection_parameters : List (String × HValue)
  sampler_kwargs : List (String × HValue)
deriving DecidableEq, Repr

/-- One top-level entry of the hierarchical binary container: a scalar leaf,
a list of strings, a flat dict of scalar leaves, or the posterior table. -/
inductive HEntry where
  | scalar (v : HValue)
  | strList (l : List String)
  | dict (d : List (String × HValue))
  | table (t : Posterior)
deriving DecidableEq, Repr

/-- The hierarchical document: an ordered association of top-level string
keys to entries. -/
abbrev HDoc := List (String × HEntry)

/-- Lookup of a string key in an ordered association list. -/
def assoc_get {α : Type} (l : List (String × α)) (k : String) : Option α :=
  match l with
  | [] => none
  | (k', v) :: rest => if k' = k then some v else assoc_get rest k

/-- Modelled from the spec: the serializer of bilby.core.result (absent from
src, which holds only its documentation) writes the Result as one
hierarchical document; the top-level key names are copied from the
documented ddls listing of outdir/label_result.h5 in docs/bilby-output.txt
lines 25 to 79: the evidence scalars are stored under the abbreviated keys
logz, logzerr and noise_logz, and the sampler configuration under kwargs. -/
def Result.to_hdf5 (r : Result) : HDoc :=
  [ ("fixed_parameter_keys", HEntry.strList r.fixed_parameter_keys),
    ("injection_parameters", HEntry.dict r.injection_parameters),
    ("kwargs", HEntry.dict r.sampler_kwargs),
    ("label", HEntry.scalar (HValue.str r.label)),
    ("log_bayes_factor", HEntry.scalar (HValue.float r.log_bayes_factor)),
    ("logz", HEntry.scalar (HValue.float r.log_evidence)),
    ("logzerr", HEntry.scalar (HValue.float r.log_evidence_error)),
    ("noise_logz", HEntry.scalar (HValue.float r.log_noise_evidence)),
    ("outdir", HEntry.scalar (HValue.str r.outdir)),
    ("parameter_labels", HEntry.strList r.parameter_labels),
    ("posterior", HEntry.table r.posterior),
    ("search_parameter_keys", HEntry.strList r.search_parameter_keys) ]

/-- Extract a float scalar at a top-level key. -/
def getFloat (d : HDoc) (k : String) : Option ℚ :=
  match assoc_get d k with
  | some (HEntry.scalar (HValue.float q)) => some q
  | _ => none

/-- Extract a string scalar at a top-level key. -/
def getStr (d : HDoc) (k : String) : Option String :=
  match assoc_get d k with
  | some (HEntry.scalar (HValue.str s)) => some s
  | _ => none

/-- Extract a list of strings at a top-level key. -/
def getStrList (d : HDoc) (k : String) : Option (List String) :=
  match assoc_get d k with
  | some (HEntry.strList l) => some l
  | _ => none

/-- Extract a flat dict at a top-level key. -/
def getDict (d : HDoc) (k : String) : Option (List (String × HValue)) :=
  match assoc_get d k with
  | some (HEntry.dict l) => some l
  | _ => none

/-- Extract the posterior table at a top-level key. -/
def getTable (d : HDoc) (k : String) : Option Posterior :=
  match assoc_get d k with
  | some (HEntry.table t) => some t
  | _ => none

/-- Modelled from the spec: the reader of bilby.core.result (absent from
src) loads the hierarchical document back into a Result, mapping the
documented container keys back to the Result fields; any missing or
ill-typed entry makes the whole read fail, never a partially populated
Result. -/
def read_result_from_hdf5 (d : HDoc) : Option Result := do
  let fk ← getStrList d "fixed_parameter_keys"
  let ip ← getDict d "injection_parameters"
  let kw ← getDict d "kwargs"
  let lb ← getStr d "label"
  let lbf ← getFloat d "log_bayes_factor"
  let lz ← getFloat d "logz"
  let lze ← getFloat d "logzerr"
  let nlz ← getFloat d "noise_logz"
  let od ← getStr d "outdir"
  let pl ← getStrList d "parameter_labels"
  let post ← getTable d "posterior"
  let sk ← getStrList d "search_parameter_keys"
  pure { label := lb, outdir := od, posterior := post,
         log_evidence := lz, log_evidence_error := lze,
         log_noise_evidence := nlz, log_bayes_factor := lbf,
         search_parameter_keys := sk, fixed_parameter_keys := fk,
         parameter_labels := pl, injection_parameters := ip,
         sampler_kwargs := kw }

/-- The concrete Result documented in docs/bilby-output.txt: the ddls
listing of outdir/basic_tutorial_result.h5 (posterior truncated to two
sample rows; the listed table has 15073 rows over the same four columns). -/
def example_result : Result :=
  { label := "basic_tutorial",
    outdir := "outdir",
    posterior := { columns := ["luminosity_distance", "mass_2", "mass_1", "iota"],
                   rows := [[4000, 29, 36, (2:ℚ)/5], [3990, 29, 36, (2:ℚ)/5]] },
    log_evidence := -(12042875089354413 : ℚ) / 1000000000000,
    log_evidence_error := (40985337772488764 : ℚ) / 1000000000000000000,
    log_noise_evidence := -(12072445313485267 : ℚ) / 1000000000000,
    log_bayes_factor := (29570224130853056 : ℚ) / 1000000000000000,
    search_parameter_keys := ["luminosity_distance", "mass_2", "mass_1", "iota"],
    fixed_parameter_keys := ["dec", "psi", "a_2", "a_1", "geocent_time",
                             "phi_jl", "ra", "phase", "phi_12", "tilt_2", "tilt_1"],
    parameter_labels := ["$d_L$", "$m_2$", "$m_1$", "$\\iota$"],
    injection_parameters :=
      [ ("a_1", HValue.float ((2:ℚ)/5)), ("a_2", HValue.float ((3:ℚ)/10)),
        ("dec", HValue.float (-(12108:ℚ)/10000)),
        ("geocent_time", HValue.float ((1126259642413:ℚ)/1000)),
        ("iota", HValue.float ((2:ℚ)/5)),
        ("luminosity_distance", HValue.float 4000),
        ("mass_1", HValue.float 36), ("mass_2", HValue.float 29),
        ("phase", HValue.float ((13:ℚ)/10)),
        ("phi_12", HValue.float ((17:ℚ)/10)),
        ("phi_jl", HValue.float ((3:ℚ)/10)),
        ("psi", HValue.float ((2659:ℚ)/1000)),
        ("ra", HValue.float ((1375:ℚ)/1000)),
        ("reference_frequency", HValue.float 50),
        ("tilt_1", HValue.float ((1:ℚ)/2)), ("tilt_2", HValue.float 1),
        ("waveform_approximant", HValue.str "IMRPhenomPv2") ],
    sampler_kwargs :=
      [ ("bound", HValue.str "multi"), ("dlogz", HValue.float ((1:ℚ)/10)),
        ("nlive", HValue.int 1000), ("sample", HValue.str "rwalk"),
        ("update_interval", HValue.int 600), ("verbose", HValue.bool true),
        ("walks", HValue.int 20) ] }

/-- Claim C3: serializing a Result to the binary container and reading it
back yields a Result with identical scalar fields and an identical
posterior table: the round trip is the identity. -/
theorem result_hdf5_roundtrip (r : Result) :
    read_result_from_hdf5 (Result.to_hdf5 r) = some r := rfl

/-- Claim C1 counterexample: in the serialized container of the documented
example Result, the Result field names log_evidence, log_evidence_error,
log_noise_evidence and sampler_kwargs address no entry at all: the
container stores those fields under logz, logzerr, noise_logz and kwargs
(docs/bilby-output.txt lines 55 to 67). -/
theorem result_hdf5_field_names_not_keys :
    assoc_get (Result.to_hdf5 example_result) "log_evidence" = none
  ∧ assoc_get (Result.to_hdf5 example_result) "log_evidence_error" = none
  ∧ assoc_get (Result.to_hdf5 example_result) "log_noise_evidence" = none
  ∧ assoc_get (Result.to_hdf5 example_result) "sampler_kwargs" = none :=
  ⟨rfl, rfl, rfl, rfl⟩

/-- Claim C1 (amended): the serialized Result is a single hierarchical
container; its top-level keys are exactly fixed_parameter_keys,
injection_parameters, kwargs, label, log_bayes_factor, logz, logzerr,
noise_logz, outdir, parameter_labels, posterior and search_parameter_keys,
and every Result field is addressable, the evidence scalars under the
abbreviated keys logz, logzerr and noise_logz and the sampler
configuration under kwargs. -/
theorem result_hdf5_addressable (r : Result) :
    (Result.to_hdf5 r).map Prod.fst =
      ["fixed_parameter_keys", "injection_parameters", "kwargs", "label",
       "log_bayes_factor", "logz", "logzerr", "noise_logz", "outdir",
       "parameter_labels", "posterior", "search_parameter_keys"]
  ∧ assoc_get (Result.to_hdf5 r) "posterior" = some (HEntry.table r.posterior)
  ∧ assoc_get (Result.to_hdf5 r) "logz"
      = some (HEntry.scalar (HValue.float r.log_evidence))
  ∧ assoc_get (Result.to_hdf5 r) "logzerr"
      = some (HEntry.scalar (HValue.float r.log_evidence_error))
  ∧ assoc_get (Result.to_hdf5 r) "noise_logz"
      = some (HEntry.scalar (HValue.float r.log_noise_evidence))
  ∧ assoc_get (Result.to_hdf5 r) "log_bayes_factor"
      = some (HEntry.scalar (HValue.float r.log_bayes_factor))
  ∧ assoc_get (Result.to_hdf5 r) "search_parameter_keys"
      = some (HEntry.strList r.search_parameter_keys)
  ∧ assoc_get (Result.to_hdf5 r) "fixed_parameter_keys"
      = some (HEntry.strList r.fixed_parameter_keys)
  ∧ assoc_get (Result.to_hdf5 r) "injection_parameters"
      = some (HEntry.dict r.injection_parameters)
  ∧ assoc_get (Result.to_hdf5 r) "kwargs"
      = some (HEntry.dict r.sampler_kwargs)
  ∧ assoc_get (Result.to_hdf5 r) "label"
      = some (HEntry.scalar (HValue.str r.label))
  ∧ assoc_get (Result.to_hdf5 r) "outdir"
      = some (HEntry.scalar (HValue.str r.outdir)) :=
  ⟨rfl, rfl, rfl, rfl, rfl, rfl, rfl, rfl, rfl, rfl, rfl, rfl⟩

/-! ## Priors and prior collections

The prior declarations in bilby/gw/prior_files and the notebook
examples/tutorials/compare_samplers.ipynb construct named priors
(Uniform, Sine, Cosine) and fix parameters by assigning a constant, which
bilby turns into a DeltaFunction prior. The Prior and PriorDict classes
themselves are absent from src, so they are modelled from the spec. -/

/-- Modelled from the spec: one scalar prior distribution with a unique
name; a DeltaFunction prior is the degenerate fixed prior returning a
constant. The constructors mirror the prior kinds declared in
bilby/gw/prior_files/GW150914.prior and the compare_samplers notebook. -/
inductive Prior where
  | uniform (name : String) (minimum maximum : ℚ)
  | sine (name : String) (minimum maximum : ℚ)
  | cosine (name : String) (minimum maximum : ℚ)
  | deltaFunction (name : String) (peak : ℚ)
deriving DecidableEq, Repr

/-- The unique name of a prior. -/
def Prior.name : Prior → String
  | .uniform n _ _ => n
  | .sine n _ _ => n
  | .cosine n _ _ => n
  | .deltaFunction n _ => n

/-- Whether a prior is the degenerate fixed (delta-function) prior. -/
def Prior.is_fixed : Prior → Bool
  | .deltaFunction _ _ => true
  | _ => false

/-- Modelled from the spec: a Prior Collection is an ordered mapping of
parameter names to priors. -/
structure PriorDict where
  items : List Prior
deriving DecidableEq, Repr

/-- The declared parameter names, in declaration order. -/
def PriorDict.names (pd : PriorDict) : List String :=
  pd.items.map Prior.name

/-- The ordered free (search) parameter keys: names of the non-degenerate
priors, in declaration order. -/
def PriorDict.search_parameter_keys (pd : PriorDict) : List String :=
  (pd.items.filter (fun p => !p.is_fixed)).map Prior.name

/-- The ordered fixed parameter keys: names of the delta-function priors,
in declaration order. -/
def PriorDict.fixed_parameter_keys (pd : PriorDict) : List String :=
  (pd.items.filter Prior.is_fixed).map Prior.name

/-- Claim C4: in every prior collection with unique names, the search keys
and the fixed keys are disjoint, and their lengths sum to the total number
of declared parameters. -/
theorem priordict_partition (pd : PriorDict) (h : pd.names.Nodup) :
    pd.search_parameter_keys.length + pd.fixed_parameter_keys.length
      = pd.items.length
  ∧ ∀ k, k ∈ pd.search_parameter_keys → k ∉ pd.fixed_parameter_keys := by
  constructor
  · have h2 := List.length_eq_length_filter_add (l := pd.items) Prior.is_fixed
    simp only [PriorDict.search_parameter_keys, PriorDict.fixed_parameter_keys,
      List.length_map]
    omega
  · intro k hk hk'
    simp only [PriorDict.search_parameter_keys, List.mem_map,
      List.mem_filter] at hk
    simp only [PriorDict.fixed_parameter_keys, List.mem_map,
      List.mem_filter] at hk'
    obtain ⟨p, ⟨hpmem, hpfree⟩, hpname⟩ := hk
    obtain ⟨q, ⟨hqmem, hqfix⟩, hqname⟩ := hk'
    have hpq : p = q := by
      have hinj := List.inj_on_of_nodup_map (f := Prior.name) (l := pd.items) h
      exact hinj hpmem hqmem (hpname.trans hqname.symm)
    rw [hpq] at hpfree
    rw [hqfix] at hpfree
    simp at hpfree

/-- The prior collection of the documented run: eleven parameters fixed at
their injection values (docs/bilby-output.txt lines 25 to 36) and four
search parameters whose declarations follow
bilby/gw/prior_files/GW150914.prior. -/
def tutorial_priors : PriorDict :=
  { items :=
      [ Prior.uniform "luminosity_distance" 100 1000,
        Prior.uniform "mass_2" 20 40,
        Prior.uniform "mass_1" 30 50,
        Prior.sine "iota" 0 ((314159:ℚ)/100000),
        Prior.deltaFunction "dec" (-(12108:ℚ)/10000),
        Prior.deltaFunction "psi" ((2659:ℚ)/1000),
        Prior.deltaFunction "a_2" ((3:ℚ)/10),
        Prior.deltaFunction "a_1" ((2:ℚ)/5),
        Prior.deltaFunction "geocent_time" ((1126259642413:ℚ)/1000),
        Prior.deltaFunction "phi_jl" ((3:ℚ)/10),
        Prior.deltaFunction "ra" ((1375:ℚ)/1000),
        Prior.deltaFunction "phase" ((13:ℚ)/10),
        Prior.deltaFunction "phi_12" ((17:ℚ)/10),
        Prior.deltaFunction "tilt_2" 1,
        Prior.deltaFunction "tilt_1" ((1:ℚ)/2) ] }

/-- Claim C4 witness: the partition law holds for the documented
fifteen-parameter collection. -/
theorem priordict_partition_witness :
    tutorial_priors.names.Nodup
  ∧ (tutorial_priors.search_parameter_keys.length
        + tutorial_priors.fixed_parameter_keys.length
        = tutorial_priors.items.length
     ∧ ∀ k, k ∈ tutorial_priors.search_parameter_keys →
         k ∉ tutorial_priors.fixed_parameter_keys) :=
  ⟨by decide, priordict_partition tutorial_priors (by decide)⟩

/-- Modelled from the spec: the rescale transform of each prior family
declared in bilby/gw/prior_files/GW150914.prior, mapping a unit-hypercube
coordinate to a physical coordinate. The Uniform prior maps u to
minimum + u * (maximum - minimum); the Sine prior, supported on zero to
pi, maps u to arccos(1 - 2u); the Cosine prior, supported on minus pi/2
to pi/2, maps u to arcsin(2u - 1); the degenerate fixed prior returns its
constant peak regardless of u. Transcendental transforms are embedded
over the reals. -/
noncomputable def Prior.rescale : Prior → ℝ → ℝ
  | .uniform _ mn mx, u => (mn : ℝ) + u * ((mx : ℝ) - (mn : ℝ))
  | .sine _ _ _, u => Real.arccos (1 - 2 * u)
  | .cosine _ _ _, u => Real.arcsin (2 * u - 1)
  | .deltaFunction _ peak, _ => (peak : ℝ)

/-- Modelled from the spec: the cumulative distribution function of each
prior family: (x - minimum) / (maximum - minimum) for Uniform,
(1 - cos x) / 2 for Sine, (sin x + 1) / 2 for Cosine, and a step at the
peak for the degenerate fixed prior. -/
noncomputable def Prior.cdf : Prior → ℝ → ℝ
  | .uniform _ mn mx, x => (x - (mn : ℝ)) / ((mx : ℝ) - (mn : ℝ))
  | .sine _ _ _, x => (1 - Real.cos x) / 2
  | .cosine _ _ _, x => (Real.sin x + 1) / 2
  | .deltaFunction _ peak, x => if (peak : ℝ) ≤ x then 1 else 0

/-- The lower end of the support of each prior family. -/
noncomputable def Prior.support_lo : Prior → ℝ
  | .uniform _ mn _ => (mn : ℝ)
  | .sine _ _ _ => 0
  | .cosine _ _ _ => -(Real.pi / 2)
  | .deltaFunction _ peak => (peak : ℝ)

/-- The upper end of the support of each prior family. -/
noncomputable def Prior.support_hi : Prior → ℝ
  | .uniform _ _ mx => (mx : ℝ)
  | .sine _ _ _ => Real.pi
  | .cosine _ _ _ => Real.pi / 2
  | .deltaFunction _ peak => (peak : ℝ)

/-- Whether a prior has a defined, non-degenerate support: a Uniform prior
needs a nonempty interval, Sine and Cosine always have one, and the fixed
delta-function prior is degenerate. -/
def Prior.has_defined_support : Prior → Prop
  | .uniform _ mn mx => mn < mx
  | .sine _ _ _ => True
  | .cosine _ _ _ => True
  | .deltaFunction _ _ => False

/-- Claim C5: for every prior with defined support, rescale restricted to
the unit interval is monotonic non-decreasing, its image is exactly the
support of the distribution, and rescale and cdf are mutual inverses on
the support and on the open unit interval; over the exact reals the
inverse laws hold with no tolerance. -/
theorem prior_rescale_cdf_spec (p : Prior) (h : p.has_defined_support) :
    (∀ u v, 0 ≤ u → u ≤ v → v ≤ 1 → p.rescale u ≤ p.rescale v)
  ∧ (∀ u, 0 ≤ u → u ≤ 1 →
        p.support_lo ≤ p.rescale u ∧ p.rescale u ≤ p.support_hi)
  ∧ (∀ y, p.support_lo ≤ y → y ≤ p.support_hi →
        ∃ u, 0 ≤ u ∧ u ≤ 1 ∧ p.rescale u = y)
  ∧ (∀ x, p.support_lo ≤ x → x ≤ p.support_hi → p.rescale (p.cdf x) = x)
  ∧ (∀ u, 0 < u → u < 1 → p.cdf (p.rescale u) = u) := by
  cases p with
  | uniform n mn mx =>
      have hq : mn < mx := h
      have hR : (mn : ℝ) < (mx : ℝ) := by exact_mod_cast hq
      have hd : (0 : ℝ) < (mx : ℝ) - (mn : ℝ) := by linarith
      have hne : (mx : ℝ) - (mn : ℝ) ≠ 0 := ne_of_gt hd
      refine ⟨?_, ?_, ?_, ?_, ?_⟩
      · intro u v _ huv _
        simp only [Prior.rescale]
        nlinarith [mul_nonneg (sub_nonneg.mpr huv) (le_of_lt hd)]
      · intro u hu hu1
        simp only [Prior.rescale, Prior.support_lo, Prior.support_hi]
        constructor
        · nlinarith [mul_nonneg hu (le_of_lt hd)]
        · nlinarith [mul_nonneg (sub_nonneg.mpr hu1) (le_of_lt hd)]
      · intro y hy hy1
        simp only [Prior.support_lo, Prior.support_hi] at hy hy1
        refine ⟨(y - (mn : ℝ)) / ((mx : ℝ) - (mn : ℝ)), ?_, ?_, ?_⟩
        · exact div_nonneg (by linarith) (le_of_lt hd)
        · rw [div_le_one hd]
          linarith
        · simp only [Prior.rescale]
          field_simp
      · intro x _ _
        simp only [Prior.rescale, Prior.cdf]
        field_simp
      · intro u _ _
        simp only [Prior.rescale, Prior.cdf]
        field_simp
  | sine n mn mx =>
      refine ⟨?_, ?_, ?_, ?_, ?_⟩
      · intro u v _ huv _
        simp only [Prior.rescale, Real.arccos_eq_pi_div_two_sub_arcsin]
        have harc := Real.monotone_arcsin
          (show (1 : ℝ) - 2 * v ≤ 1 - 2 * u by linarith)
        linarith
      · intro u _ _
        simp only [Prior.rescale, Prior.support_lo, Prior.support_hi]
        exact ⟨Real.arccos_nonneg _, Real.arccos_le_pi _⟩
      · intro y hy hy1
        simp only [Prior.support_lo, Prior.support_hi] at hy hy1
        refine ⟨(1 - Real.cos y) / 2, ?_, ?_, ?_⟩
        · linarith [Real.cos_le_one y]
        · linarith [Real.neg_one_le_cos y]
        · simp only [Prior.rescale]
          have hcos : (1 : ℝ) - 2 * ((1 - Real.cos y) / 2) = Real.cos y := by
            ring
          rw [hcos, Real.arccos_cos hy hy1]
      · intro x hx hx1
        simp only [Prior.support_lo, Prior.support_hi] at hx hx1
        simp only [Prior.rescale, Prior.cdf]
        have hcos : (1 : ℝ) - 2 * ((1 - Real.cos x) / 2) = Real.cos x := by
          ring
        rw [hcos, Real.arccos_cos hx hx1]
      · intro u hu hu1
        simp only [Prior.rescale, Prior.cdf]
        rw [Real.cos_arccos (by linarith) (by linarith)]
        ring
  | cosine n mn mx =>
      refine ⟨?_, ?_, ?_, ?_, ?_⟩
      · intro u v _ huv _
        simp only [Prior.rescale]
        exact Real.monotone_arcsin (by linarith)
      · intro u _ _
        simp only [Prior.rescale, Prior.support_lo, Prior.support_hi]
        exact ⟨Real.neg_pi_div_two_le_arcsin _, Real.arcsin_le_pi_div_two _⟩
      · intro y hy hy1
        simp only [Prior.support_lo, Prior.support_hi] at hy hy1
        refine ⟨(Real.sin y + 1) / 2, ?_, ?_, ?_⟩
        · linarith [Real.neg_one_le_sin y]
        · linarith [Real.sin_le_one y]
        · simp only [Prior.rescale]
          have hsin : (2 : ℝ) * ((Real.sin y + 1) / 2) - 1 = Real.sin y := by
            ring
          rw [hsin, Real.arcsin_sin hy hy1]
      · intro x hx hx1
        simp only [Prior.support_lo, Prior.support_hi] at hx hx1
        simp only [Prior.rescale, Prior.cdf]
        have hsin : (2 : ℝ) * ((Real.sin x + 1) / 2) - 1 = Real.sin x := by
          ring
        rw [hsin, Real.arcsin_sin hx hx1]
      · intro u hu hu1
        simp only [Prior.rescale, Prior.cdf]
        rw [Real.sin_arcsin (by linarith) (by linarith)]
        ring
  | deltaFunction n peak =>
      exact absurd h (by simp [Prior.has_defined_support])

/-- Claim C5 witness: the rescale and cdf laws at the Sine iota prior of
the tutorial collection, declared as in
bilby/gw/prior_files/GW150914.prior. -/
theorem prior_rescale_cdf_spec_witness :
    (Prior.sine "iota" 0 ((314159:ℚ)/100000)).has_defined_support
  ∧ ((∀ u v, 0 ≤ u → u ≤ v → v ≤ 1 →
        (Prior.sine "iota" 0 ((314159:ℚ)/100000)).rescale u
          ≤ (Prior.sine "iota" 0 ((314159:ℚ)/100000)).rescale v)
  ∧ (∀ u, 0 ≤ u → u ≤ 1 →
        (Prior.sine "iota" 0 ((314159:ℚ)/100000)).support_lo
            ≤ (Prior.sine "iota" 0 ((314159:ℚ)/100000)).rescale u
        ∧ (Prior.sine "iota" 0 ((314159:ℚ)/100000)).rescale u
            ≤ (Prior.sine "iota" 0 ((314159:ℚ)/100000)).support_hi)
  ∧ (∀ y, (Prior.sine "iota" 0 ((314159:ℚ)/100000)).support_lo ≤ y →
        y ≤ (Prior.sine "iota" 0 ((314159:ℚ)/100000)).support_hi →
        ∃ u, 0 ≤ u ∧ u ≤ 1
          ∧ (Prior.sine "iota" 0 ((314159:ℚ)/100000)).rescale u = y)
  ∧ (∀ x, (Prior.sine "iota" 0 ((314159:ℚ)/100000)).support_lo ≤ x →
        x ≤ (Prior.sine "iota" 0 ((314159:ℚ)/100000)).support_hi →
        (Prior.sine "iota" 0 ((314159:ℚ)/100000)).rescale
            ((Prior.sine "iota" 0 ((314159:ℚ)/100000)).cdf x) = x)
  ∧ (∀ u, 0 < u → u < 1 →
        (Prior.sine "iota" 0 ((314159:ℚ)/100000)).cdf
            ((Prior.sine "iota" 0 ((314159:ℚ)/100000)).rescale u) = u)) :=
  ⟨by simp [Prior.has_defined_support],
   prior_rescale_cdf_spec (Prior.sine "iota" ((0:ℚ)) ((314159:ℚ)/100000))
     (by simp [Prior.has_defined_support])⟩

/-! ## Likelihood wrapping and result assembly -/

/-- A log-likelihood value as the backends see it: a finite scalar or one
of the IEEE non-finite classes. -/
inductive LogLikeValue where
  | finite (q : ℚ)
  | posInf
  | negInf
  | nan
deriving DecidableEq, Repr

/-- Whether a log-likelihood value is finite. -/
def LogLikeValue.is_finite : LogLikeValue → Bool
  | .finite _ => true
  | _ => false

/-- Modelled from the spec: each sampler adapter wraps the supplied
log-likelihood so that a non-finite result is treated as negative
infinity, zero posterior mass, and is never propagated as NaN into the
backend. -/
def wrap_log_likelihood {α : Type} (f : α → LogLikeValue) (x : α) :
    LogLikeValue :=
  match f x with
  | .finite q => .finite q
  | _ => .negInf

/-- Claim C7: the adapter-wrapped log-likelihood never returns NaN; a
non-finite value from the underlying likelihood is mapped to negative
infinity, and a finite value passes through unchanged. -/
theorem wrap_log_likelihood_finite {α : Type} (f : α → LogLikeValue)
    (x : α) :
    wrap_log_likelihood f x ≠ LogLikeValue.nan
  ∧ ((f x).is_finite = false →
        wrap_log_likelihood f x = LogLikeValue.negInf)
  ∧ ((f x).is_finite = true → wrap_log_likelihood f x = f x) := by
  unfold wrap_log_likelihood
  rcases hfx : f x with q | _ | _ | _ <;>
    simp [LogLikeValue.is_finite]

/-- Claim C7 witness: a likelihood returning NaN is wrapped to negative
infinity. -/
theorem wrap_log_likelihood_finite_witness :
    ((fun (_ : ℚ) => LogLikeValue.nan) 0).is_finite = false
  ∧ wrap_log_likelihood (fun (_ : ℚ) => LogLikeValue.nan) 0
      = LogLikeValue.negInf :=
  ⟨rfl, (wrap_log_likelihood_finite (fun (_ : ℚ) => LogLikeValue.nan) 0).2.1 rfl⟩

/-- The raw output a backend reports at termination: the accepted posterior
sample rows, in search-key order, and the evidence estimate with its
uncertainty. -/
structure RawBackendOutput where
  samples : List (List ℚ)
  log_evidence : ℚ
  log_evidence_error : ℚ
deriving DecidableEq, Repr

/-- Modelled from the spec: Result assembly normalizes the raw backend
output into the canonical Result, computing log_bayes_factor as
log_evidence minus log_noise_evidence, with the posterior columns taken
from the search parameter keys of the prior collection. -/
def assemble (raw : RawBackendOutput) (priors : PriorDict)
    (log_noise_evidence : ℚ) (kwargs : List (String × HValue))
    (injections : List (String × HValue)) (label outdir : String) :
    Result :=
  { label := label,
    outdir := outdir,
    posterior := { columns := priors.search_parameter_keys,
                   rows := raw.samples },
    log_evidence := raw.log_evidence,
    log_evidence_error := raw.log_evidence_error,
    log_noise_evidence := log_noise_evidence,
    log_bayes_factor := raw.log_evidence - log_noise_evidence,
    search_parameter_keys := priors.search_parameter_keys,
    fixed_parameter_keys := priors.fixed_parameter_keys,
    parameter_labels := priors.search_parameter_keys,
    injection_parameters := injections,
    sampler_kwargs := kwargs }

/-- Claim C2: in every assembled Result, the stored log_bayes_factor equals
log_evidence minus log_noise_evidence. -/
theorem assemble_log_bayes_factor (raw : RawBackendOutput)
    (priors : PriorDict) (log_noise_evidence : ℚ)
    (kwargs : List (String × HValue))
    (injections : List (String × HValue)) (label outdir : String) :
    (assemble raw priors log_noise_evidence kwargs injections label
        outdir).log_bayes_factor
      = (assemble raw priors log_noise_evidence kwargs injections label
          outdir).log_evidence
        - (assemble raw priors log_noise_evidence kwargs injections label
            outdir).log_noise_evidence := rfl

/-! ## Sampler dispatch -/

/-- The error raised on an invalid configuration, carrying the enumerated
list of known sampler backends. -/
structure ConfigurationError where
  message : String
  valid_samplers : List String
deriving DecidableEq, Repr

/-- Modelled from the spec: the known sampler backend names; the
compare_samplers notebook exercises pymultinest, dynesty and ptemcee. -/
def implemented_samplers : List String :=
  ["cpnest", "dynesty", "emcee", "nestle", "ptemcee", "pymultinest"]

/-- Modelled from the spec: run_sampler dispatches on the requested backend
name. An unrecognized name fails fast with a ConfigurationError that
enumerates the known backends, before the likelihood is ever touched; a
known name hands the wrapped likelihood to the opaque backend, which
reports its raw output together with the number of likelihood evaluations
it performed. -/
def run_sampler (backend : (List ℚ → LogLikeValue) → RawBackendOutput × Nat)
    (sampler : String) (likelihood : List ℚ → LogLikeValue)
    (priors : PriorDict) (log_noise_evidence : ℚ)
    (kwargs : List (String × HValue)) (injections : List (String × HValue))
    (label outdir : String) : Except ConfigurationError Result × Nat :=
  if sampler ∈ implemented_samplers then
    let out := backend (wrap_log_likelihood likelihood)
    (Except.ok (assemble out.1 priors log_noise_evidence kwargs injections
        label outdir), out.2)
  else
    (Except.error
      { message := "Sampler " ++ sampler ++ " not implemented",
        valid_samplers := implemented_samplers }, 0)

/-- Claim C6: requesting a sampler backend outside the known set fails with
a ConfigurationError enumerating the valid backend names, and the supplied
likelihood is evaluated zero times before that failure. -/
theorem run_sampler_unknown_backend
    (backend : (List ℚ → LogLikeValue) → RawBackendOutput × Nat)
    (sampler : String) (likelihood : List ℚ → LogLikeValue)
    (priors : PriorDict) (log_noise_evidence : ℚ)
    (kwargs : List (String × HValue)) (injections : List (String × HValue))
    (label outdir : String) (h : sampler ∉ implemented_samplers) :
    (run_sampler backend sampler likelihood priors log_noise_evidence
        kwargs injections label outdir).2 = 0
  ∧ (run_sampler backend sampler likelihood priors log_noise_evidence
        kwargs injections label outdir).1
      = Except.error
          { message := "Sampler " ++ sampler ++ " not implemented",
            valid_samplers := implemented_samplers } := by
  unfold run_sampler
  rw [if_neg h]
  exact ⟨rfl, rfl⟩

/-- Claim C6 witness: the scenario of the spec, requesting the unknown
backend name not-a-real-sampler with a constant likelihood and a backend
that would evaluate it once. -/
theorem run_sampler_unknown_backend_witness :
    "not-a-real-sampler" ∉ implemented_samplers
  ∧ ((run_sampler
        (fun f => ({ samples := [], log_evidence := f [] |>.is_finite |>.rec 0 0,
                     log_evidence_error := 0 }, 1))
        "not-a-real-sampler" (fun _ => LogLikeValue.finite 0)
        tutorial_priors 0 [] [] "basic_tutorial" "outdir").2 = 0
  ∧ (run_sampler
        (fun f => ({ samples := [], log_evidence := f [] |>.is_finite |>.rec 0 0,
                     log_evidence_error := 0 }, 1))
        "not-a-real-sampler" (fun _ => LogLikeValue.finite 0)
        tutorial_priors 0 [] [] "basic_tutorial" "outdir").1
      = Except.error
          { message := "Sampler " ++ "not-a-real-sampler" ++ " not implemented",
            valid_samplers := implemented_samplers }) :=
  ⟨by decide,
   run_sampler_unknown_backend _ _ _ _ _ _ _ _ _ (by decide)⟩

/-! ## Checkpoint manager -/

/-- A checkpoint: the opaque backend blob plus a small header holding the
iteration count and a content identifier derived from the prior collection
and likelihood configuration. -/
structure Checkpoint where
  identifier : String
  iteration : Nat
  blob : List Nat
deriving DecidableEq, Repr

/-- The outcome of a checkpoint load: the resumable state, no checkpoint at
the path, or a hard incompatibility carrying both identifiers. -/
inductive LoadResult where
  | loaded (c : Checkpoint)
  | notFound
  | incompatible (found expected : String)
deriving DecidableEq, Repr

/-- Modelled from the spec: load(path, expected_identifier) returns the
state, NotFound, or Incompatible; an identifier mismatch is a hard failure
unless the caller explicitly requested a forced restart, in which case the
stored checkpoint is discarded as if missing. -/
def load_checkpoint (stored : Option Checkpoint) (expected : String)
    (force_restart : Bool) : LoadResult :=
  match stored with
  | none => LoadResult.notFound
  | some c =>
      if c.identifier = expected then LoadResult.loaded c
      else if force_restart then LoadResult.notFound
      else LoadResult.incompatible c.identifier expected

/-- Claim C8: a checkpoint whose header identifier mismatches the run
configuration identifier loads as a hard incompatibility, never a silent
restart; under an explicit forced restart the mismatch is treated exactly
like a missing checkpoint. -/
theorem load_checkpoint_mismatch (c : Checkpoint) (expected : String)
    (h : c.identifier ≠ expected) :
    load_checkpoint (some c) expected false
        = LoadResult.incompatible c.identifier expected
  ∧ load_checkpoint (some c) expected true
        = load_checkpoint none expected true
  ∧ load_checkpoint none expected true = LoadResult.notFound := by
  refine ⟨?_, ?_, rfl⟩ <;> simp [load_checkpoint, h]

/-- Claim C8 witness: a checkpoint written for identifier run-a loaded into
a run with identifier run-b. -/
theorem load_checkpoint_mismatch_witness :
    (Checkpoint.mk "run-a" 5 [1, 2, 3]).identifier ≠ "run-b"
  ∧ (load_checkpoint (some (Checkpoint.mk "run-a" 5 [1, 2, 3])) "run-b" false
        = LoadResult.incompatible
            (Checkpoint.mk "run-a" 5 [1, 2, 3]).identifier "run-b"
  ∧ load_checkpoint (some (Checkpoint.mk "run-a" 5 [1, 2, 3])) "run-b" true
        = load_checkpoint none "run-b" true
  ∧ load_checkpoint none "run-b" true = LoadResult.notFound) :=
  ⟨by decide, load_checkpoint_mismatch _ "run-b" (by decide)⟩

/-- The durable storage visible at one checkpoint path: the blob at the
main path, if any, and the blob at the temporary path, if any. -/
structure Storage where
  main : Option (List Nat)
  tmp : Option (List Nat)
deriving DecidableEq, Repr

/-- One primitive durable-storage operation: truncate the temporary file,
append one byte to it, or atomically rename it over the main path. -/
inductive FsStep where
  | truncateTmp
  | appendTmp (byte : Nat)
  | renameTmpToMain
deriving DecidableEq, Repr

/-- The effect of one storage operation. -/
def apply_step (s : Storage) : FsStep → Storage
  | FsStep.truncateTmp => { s with tmp := some [] }
  | FsStep.appendTmp b => { s with tmp := some ((s.tmp.getD []) ++ [b]) }
  | FsStep.renameTmpToMain => { main := s.tmp, tmp := none }

/-- Run a sequence of storage operations. -/
def run_steps (s : Storage) (l : List FsStep) : Storage :=
  l.foldl apply_step s

/-- Modelled from the spec: save(path, state) performs an atomic write: the
state is written byte by byte to a temporary location, which is then
renamed over the main path in one step. -/
def save_steps (blob : List Nat) : List FsStep :=
  FsStep.truncateTmp :: (blob.map FsStep.appendTmp ++ [FsStep.renameTmpToMain])

lemma main_unchanged_of_no_rename (l : List FsStep) (s : Storage)
    (h : FsStep.renameTmpToMain ∉ l) : (run_steps s l).main = s.main := by
  induction l generalizing s with
  | nil => rfl
  | cons a t ih =>
      have ha : a ≠ FsStep.renameTmpToMain := fun hh => h (hh ▸ List.mem_cons_self a t)
      have ht : FsStep.renameTmpToMain ∉ t := fun hh => h (List.mem_cons_of_mem a hh)
      have hstep : (apply_step s a).main = s.main := by
        cases a with
        | truncateTmp => rfl
        | appendTmp b => rfl
        | renameTmpToMain => exact absurd rfl ha
      calc (run_steps s (a :: t)).main
          = (run_steps (apply_step s a) t).main := rfl
        _ = (apply_step s a).main := ih (apply_step s a) ht
        _ = s.main := hstep

lemma tmp_after_appends (bytes : List Nat) (s : Storage) (acc : List Nat)
    (h : s.tmp = some acc) :
    run_steps s (bytes.map FsStep.appendTmp)
      = { main := s.main, tmp := some (acc ++ bytes) } := by
  induction bytes generalizing s acc with
  | nil =>
      simp only [List.map_nil, List.append_nil]
      cases s with
      | mk m t => cases h; rfl
  | cons b bs ih =>
      have hstep : apply_step s (FsStep.appendTmp b)
          = { main := s.main, tmp := some (acc ++ [b]) } := by
        cases s with
        | mk m t => cases h; rfl
      calc run_steps s ((b :: bs).map FsStep.appendTmp)
          = run_steps (apply_step s (FsStep.appendTmp b))
              (bs.map FsStep.appendTmp) := rfl
        _ = { main := (apply_step s (FsStep.appendTmp b)).main,
              tmp := some ((acc ++ [b]) ++ bs) } := by
              rw [ih (apply_step s (FsStep.appendTmp b)) (acc ++ [b])
                (by rw [hstep])]
        _ = { main := s.main, tmp := some (acc ++ b :: bs) } := by
              rw [hstep]
              simp

/-- Claim C9: the checkpoint save is atomic: a crash after any prefix of
the primitive storage operations leaves the main path holding either the
previous checkpoint, intact, or the complete new state, and a completed
save leaves exactly the new state at the main path. -/
theorem checkpoint_save_atomic (s0 : Storage) (blob : List Nat) :
    (∀ n, (run_steps s0 ((save_steps blob).take n)).main = s0.main
        ∨ (run_steps s0 ((save_steps blob).take n)).main = some blob)
  ∧ (run_steps s0 (save_steps blob)).main = some blob := by
  have hfull : (run_steps s0 (save_steps blob)).main = some blob := by
    have h1 : run_steps s0 (save_steps blob)
        = apply_step (run_steps (apply_step s0 FsStep.truncateTmp)
            (blob.map FsStep.appendTmp)) FsStep.renameTmpToMain := by
      unfold save_steps run_steps
      rw [List.foldl_cons, List.foldl_append, List.foldl_cons, List.foldl_nil]
    rw [h1, tmp_after_appends blob (apply_step s0 FsStep.truncateTmp) [] rfl]
    rfl
  refine ⟨?_, hfull⟩
  intro n
  by_cases hn : (save_steps blob).length ≤ n
  · right
    rw [List.take_of_length_le hn]
    exact hfull
  · left
    have hlen : n ≤ (FsStep.truncateTmp :: blob.map FsStep.appendTmp).length := by
      simp only [save_steps, List.length_cons, List.length_append,
        List.length_map, List.length_cons, List.length_nil] at hn ⊢
      omega
    have htake : (save_steps blob).take n
        = (FsStep.truncateTmp :: blob.map FsStep.appendTmp).take n := by
      have : save_steps blob
          = (FsStep.truncateTmp :: blob.map FsStep.appendTmp)
            ++ [FsStep.renameTmpToMain] := by
        simp [save_steps]
      rw [this, List.take_append_of_le_length hlen]
    rw [htake]
    apply main_unchanged_of_no_rename
    intro hmem
    have hmem' := List.mem_of_mem_take hmem
    rcases List.mem_cons.mp hmem' with h1 | h2
    · exact absurd h1 (by simp)
    · rcases List.mem_map.mp h2 with ⟨b, _, hb⟩
      exact absurd hb (by simp)

/-! ## Reading a result file -/

/-- The canonical result file name, outdir/label_result.h5, as documented
in docs/bilby-output.txt. -/
def result_filename (outdir label : String) : String :=
  outdir ++ "/" ++ label ++ "_result.h5"

/-- Modelled from the spec and docs/bilby-output.txt lines 97 to 110:
read_in_result loads a result file either from an explicit filename or
from the outdir and label pair, from which the canonical file name is
derived; the stored filesystem is an association of file names to
hierarchical documents. -/
def read_in_result (files : List (String × HDoc)) (filename : Option String)
    (outdir label : String) : Option Result :=
  match assoc_get files
      (match filename with
       | some f => f
       | none => result_filename outdir label) with
  | some d => read_result_from_hdf5 d
  | none => none

/-- Claim C10: when a result file exists at outdir/label_result.h5, the two
documented invocation forms of read_in_result are interchangeable and both
return the stored Result. -/
theorem read_in_result_forms_equivalent (files : List (String × HDoc))
    (outdir label : String) (r : Result)
    (h : assoc_get files (outdir ++ "/" ++ label ++ "_result.h5")
        = some (Result.to_hdf5 r)) :
    read_in_result files none outdir label
        = read_in_result files (some (outdir ++ "/" ++ label ++ "_result.h5"))
            outdir label
  ∧ read_in_result files none outdir label = some r := by
  have hname : result_filename outdir label
      = outdir ++ "/" ++ label ++ "_result.h5" := rfl
  constructor
  · rfl
  · show (match assoc_get files (result_filename outdir label) with
      | some d => read_result_from_hdf5 d
      | none => none) = some r
    rw [hname, h]
    rfl

/-- The filesystem holding the documented example result file. -/
def tutorial_files : List (String × HDoc) :=
  [(result_filename "outdir" "basic_tutorial", Result.to_hdf5 example_result)]

/-- Claim C10 witness: both invocation forms recover the documented example
Result from outdir/basic_tutorial_result.h5. -/
theorem read_in_result_forms_equivalent_witness :
    assoc_get tutorial_files ("outdir" ++ "/" ++ "basic_tutorial" ++ "_result.h5")
        = some (Result.to_hdf5 example_result)
  ∧ (read_in_result tutorial_files none "outdir" "basic_tutorial"
        = read_in_result tutorial_files
            (some ("outdir" ++ "/" ++ "basic_tutorial" ++ "_result.h5"))
            "outdir" "basic_tutorial"
  ∧ read_in_result tutorial_files none "outdir" "basic_tutorial"
        = some example_result) :=
  ⟨rfl, read_in_result_forms_equivalent tutorial_files "outdir"
    "basic_tutorial" example_result rfl⟩

end Bilby
